import Mathlib

/-!
# The RethinkDB adapter of lyceum (`app/db/rethinkdb.go`)

A shallow embedding of the provisioning functions (`initializeRethinkDB`,
`createDatabase`, `createTable`, `databaseExists`, `tableExists`) and of the five
document operations (`InsertRethinkDBDocument`, `GetRethinkDBDocument`,
`GetRethinkDBAllDocuments`, `UpdateRethinkDBDocument`, `DeleteRethinkDBDocument`).

The gorethink driver and the server behind it are not part of the repository.
They are represented by

* `Session`: the observable state of the connection (the server catalog, the set
  of open cursors, the trace of driver calls made so far), threaded through every
  function, and
* `Driver`: an arbitrary oracle that decides which queries fail, what rows and
  write responses come back and how rows decode into the target of the caller.

The `error` results of Go are `Option Err` (`none` is `nil`); a run-time panic is the
`panicked` constructor of `Outcome`. Logging through `revel.AppLog` has no effect
on any result and is left out.
-/

namespace Lyceum

/-! ## Data model -/

/-- A table term: the (database, table) pair a document query is built on. -/
structure TableRef where
  db : String
  name : String
deriving DecidableEq, Repr

/-- An opaque document payload handed to an insert or update. -/
abbrev Doc := String

/-- One result document as delivered by a cursor. -/
abbrev Row := String

/-- The caller-supplied decode target (`model interface{}`), seen as the value it holds. -/
abbrev Model := List String

/-- Go `error` values that the adapter returns. -/
inductive Err where
  /-- The sentinel `r.ErrEmptyResult`. -/
  | emptyResult
  /-- Any other error produced by the driver (connection, query, decoding). -/
  | driver (msg : String)
  /-- The value of `fmt.Errorf("Inserted unexpected document count: %d", n)`. -/
  | insertedCount (n : Int)
  /-- The value of `fmt.Errorf("unexpected document replaced count: %d", n)`. -/
  | replacedCount (n : Int)
deriving DecidableEq, Repr

/-- The text of an error, as `Error()` renders it. -/
def Err.Error : Err → String
  | .emptyResult => "The result does not contain any more rows"
  | .driver msg => msg
  | .insertedCount n => "Inserted unexpected document count: " ++ toString n
  | .replacedCount n => "unexpected document replaced count: " ++ toString n

/-- The query terms the adapter builds. -/
inductive Term where
  /-- The term `r.DBList()`. -/
  | dbList
  /-- The term `r.DBCreate(name)`. -/
  | dbCreate (name : String)
  /-- The term `r.DB(db).TableList()`. -/
  | tableList (db : String)
  /-- The term `r.DB(db).TableCreate(name)`. -/
  | tableCreate (db name : String)
  /-- The term `table.Get(key)`. -/
  | get (table : TableRef) (key : String)
  /-- The bare `table` term (an unfiltered scan). -/
  | scan (table : TableRef)
  /-- The term `table.Get(key).Delete()`. -/
  | delete (table : TableRef) (key : String)
  /-- The term `table.Insert(doc)`. -/
  | insert (table : TableRef) (doc : Doc)
  /-- The term `table.Get(id).Update(doc)`. -/
  | update (table : TableRef) (key : String) (doc : Doc)
deriving DecidableEq, Repr

/-- Whether a term is a create-database or create-table command. -/
def Term.isCreate : Term → Bool
  | .dbCreate _ => true
  | .tableCreate _ _ => true
  | _ => false

/-- Whether a term is a database or table listing. -/
def Term.isListing : Term → Bool
  | .dbList => true
  | .tableList _ => true
  | _ => false

/-- A call the adapter makes on the driver. -/
inductive Call where
  /-- The call `term.Run(session)`. -/
  | run (t : Term)
  /-- The call `term.RunWrite(session)`. -/
  | runWrite (t : Term)
  /-- The call `cursor.Close()` on the cursor with the given handle. -/
  | close (id : Nat)
deriving DecidableEq, Repr

/-- The observable state behind a `*r.Session`. -/
structure Session where
  /-- Names of the databases in the server catalog. -/
  dbs : List String
  /-- The (database, table) pairs in the server catalog. -/
  tables : List (String × String)
  /-- Handles of the cursors that are currently open. -/
  cursors : List Nat
  /-- The handle the next cursor will get. -/
  next : Nat
  /-- Every driver call made so far, oldest first. -/
  trace : List Call
deriving DecidableEq, Repr

/-- A result cursor (`*r.Cursor`). -/
structure Cursor where
  id : Nat
  term : Term
  rows : List Row
deriving DecidableEq, Repr

/-- The fields of `r.WriteResponse` the adapter reads. -/
structure WriteResponse where
  Inserted : Int
  Replaced : Int
  GeneratedKeys : List String
deriving DecidableEq, Repr

/-- The behaviour of driver and server that the adapter cannot see into. -/
structure Driver where
  /-- The error with which executing a term fails in a state, if it fails. -/
  fault : Term → Session → Option Err
  /-- The rows a successfully executed non-listing term yields. -/
  rows : Term → Session → List Row
  /-- The response of a successfully executed write. -/
  write : Term → Session → WriteResponse
  /-- The error met while draining a cursor into an untyped destination, if any. -/
  readErr : Cursor → Option Err
  /-- Decoding one row into the target: the error, if any, and the new target. -/
  decodeOne : Row → Model → Option Err × Model
  /-- Decoding all rows into the target: the error, if any, and the new target. -/
  decodeAll : List Row → Model → Option Err × Model

/-- The result of a Go function that may panic. -/
inductive Outcome (α : Type) where
  | returned (a : α)
  | panicked (msg : String)
deriving DecidableEq, Repr

/-! ## The driver interface -/

/-- The names of the tables of database `db` in the catalog. -/
def Session.tablesOf (s : Session) (db : String) : List String :=
  (s.tables.filter (fun p => p.1 == db)).map (fun p => p.2)

/-- The effect a successfully executed term has on the catalog. -/
def Session.apply (s : Session) : Term → Session
  | .dbCreate name => { s with dbs := name :: s.dbs }
  | .tableCreate db name => { s with tables := (db, name) :: s.tables }
  | _ => s

/-- The rows a successfully executed term yields: the catalog for a listing, the
driver oracle for everything else. -/
def Driver.response (d : Driver) (t : Term) (s : Session) : List Row :=
  match t with
  | .dbList => s.dbs
  | .tableList db => s.tablesOf db
  | _ => d.rows t s

/-- The call `t.Run(session)`: on failure the error and no cursor, on success a
fresh open cursor. -/
def Term.Run (d : Driver) (t : Term) (s : Session) : Except Err Cursor × Session :=
  let s1 : Session := { s with trace := s.trace ++ [Call.run t] }
  match d.fault t s with
  | some e => (.error e, s1)
  | none =>
    let s2 := s1.apply t
    (.ok { id := s.next, term := t, rows := d.response t s },
      { s2 with cursors := s.next :: s2.cursors, next := s.next + 1 })

/-- The call `t.RunWrite(session)`: the driver runs the term, decodes the write
response and releases its cursor itself. -/
def Term.RunWrite (d : Driver) (t : Term) (s : Session) :
    Except Err WriteResponse × Session :=
  let s1 : Session := { s with trace := s.trace ++ [Call.runWrite t] }
  match d.fault t s with
  | some e => (.error e, s1)
  | none => (.ok (d.write t s), s1.apply t)

/-- The call `res.Close()`. -/
def Cursor.Close (c : Cursor) (s : Session) : Session :=
  { s with cursors := s.cursors.erase c.id, trace := s.trace ++ [Call.close c.id] }

/-- The call `res.One(model)` on a typed target: `ErrEmptyResult` when the cursor has
no row, otherwise the outcome of decoding the first row. -/
def Cursor.One (d : Driver) (c : Cursor) (model : Model) : Option Err × Model :=
  match c.rows with
  | [] => (some Err.emptyResult, model)
  | row :: _ => d.decodeOne row model

/-- The call `res.All(model)` on a typed target. -/
def Cursor.All (d : Driver) (c : Cursor) (model : Model) : Option Err × Model :=
  d.decodeAll c.rows model

/-- The call `res.One(&row)` with `var row interface{}`: only the error is used. -/
def Cursor.OneRaw (d : Driver) (c : Cursor) : Option Err :=
  match c.rows with
  | [] => some Err.emptyResult
  | _ :: _ => d.readErr c

/-- The call `res.All(&rows)` with `var rows []interface{}`. -/
def Cursor.AllRaw (d : Driver) (c : Cursor) : Except Err (List Row) :=
  match d.readErr c with
  | some e => .error e
  | none => .ok c.rows

/-! ## Document operations -/

/-- The function `DeleteRethinkDBDocument`. -/
def DeleteRethinkDBDocument (d : Driver) (key : String) (table : TableRef)
    (session : Session) : Option Err × Session :=
  match (Term.delete table key).Run d session with
  | (.error err, s) => (some err, s)
  | (.ok res, s) => (none, res.Close s)

/-- The function `GetRethinkDBDocument`. -/
def GetRethinkDBDocument (d : Driver) (key : String) (model : Model) (table : TableRef)
    (session : Session) : Option Err × Model × Session :=
  match (Term.get table key).Run d session with
  | (.error err, s) => (some err, model, s)
  | (.ok res, s) =>
    let out := res.One d model
    (out.1, out.2, res.Close s)

/-- The function `InsertRethinkDBDocument`. -/
def InsertRethinkDBDocument (d : Driver) (doc : Doc) (model : Model) (table : TableRef)
    (session : Session) : Outcome (Option Err × Model × Session) :=
  match (Term.insert table doc).RunWrite d session with
  | (.error err, s) => .returned (some err, model, s)
  | (.ok res, s) =>
    if res.Inserted ≠ 1 then
      .returned (some (Err.insertedCount res.Inserted), model, s)
    else
      match res.GeneratedKeys[0]? with
      | none => .panicked "runtime error: index out of range [0] with length 0"
      | some key => .returned (GetRethinkDBDocument d key model table s)

/-- The function `GetRethinkDBAllDocuments`. -/
def GetRethinkDBAllDocuments (d : Driver) (model : Model) (table : TableRef)
    (session : Session) : Option Err × Model × Session :=
  match (Term.scan table).Run d session with
  | (.error err, s) => (some err, model, s)
  | (.ok res, s) =>
    let out := res.All d model
    match out.1 with
    | some err => (some err, out.2, res.Close s)
    | none => (none, out.2, res.Close s)

/-- The function `UpdateRethinkDBDocument`. -/
def UpdateRethinkDBDocument (d : Driver) (id : String) (doc : Doc) (model : Model)
    (table : TableRef) (session : Session) : Option Err × Model × Session :=
  match (Term.update table id doc).RunWrite d session with
  | (.error err, s) => (some err, model, s)
  | (.ok res, s) =>
    if res.Replaced ≠ 1 then
      (some (Err.replacedCount res.Replaced), model, s)
    else
      GetRethinkDBDocument d id model table s

/-! ## Provisioning -/

/-- The loop `for _, x := range rows { if x == name { return true } }; return false`. -/
def containsName (name : String) : List Row → Bool
  | [] => false
  | x :: rest => if x = name then true else containsName name rest

/-- The function `databaseExists`. -/
def databaseExists (d : Driver) (name : String) (session : Session) : Bool × Session :=
  match Term.dbList.Run d session with
  | (.error _, s) => (false, s)
  | (.ok res, s) =>
    match res.AllRaw d with
    | .error _ => (false, res.Close s)
    | .ok rows => (containsName name rows, res.Close s)

/-- The function `createDatabase`. -/
def createDatabase (d : Driver) (name : String) (session : Session) : Option Err × Session :=
  match databaseExists d name session with
  | (true, s) => (none, s)
  | (false, s) =>
    match (Term.dbCreate name).Run d s with
    | (.error err, s1) => (some err, s1)
    | (.ok res, s1) =>
      let err := res.OneRaw d
      if err = some Err.emptyResult then (err, res.Close s1)
      else if err ≠ none then (err, res.Close s1)
      else (none, res.Close s1)

/-- The function `tableExists`. -/
def tableExists (d : Driver) (db name : String) (session : Session) : Bool × Session :=
  match (Term.tableList db).Run d session with
  | (.error _, s) => (false, s)
  | (.ok res, s) =>
    match res.AllRaw d with
    | .error _ => (false, res.Close s)
    | .ok rows => (containsName name rows, res.Close s)

/-- The function `createTable`. -/
def createTable (d : Driver) (db name : String) (session : Session) : Option Err × Session :=
  match tableExists d db name session with
  | (true, s) => (none, s)
  | (false, s) =>
    match (Term.tableCreate db name).Run d s with
    | (.error err, s1) => (some err, s1)
    | (.ok res, s1) =>
      let err := res.OneRaw d
      if err = some Err.emptyResult then (err, res.Close s1)
      else if err ≠ none then (err, res.Close s1)
      else (none, res.Close s1)

/-- The function `initializeRethinkDB`: the seven results are discarded. -/
def initializeRethinkDB (d : Driver) (session : Session) : Option Err × Session :=
  let s0 := (createDatabase d "lyceum" session).2
  let s1 := (createTable d "lyceum" "artifact" s0).2
  let s2 := (createTable d "lyceum" "item" s1).2
  let s3 := (createTable d "lyceum" "library" s2).2
  let s4 := (createTable d "lyceum" "organization" s3).2
  let s5 := (createTable d "lyceum" "role" s4).2
  let s6 := (createTable d "lyceum" "user" s5).2
  (none, s6)

/-- The create commands among a list of calls, in order. -/
def creations : List Call → List Term
  | [] => []
  | Call.run t :: rest => if t.isCreate then t :: creations rest else creations rest
  | _ :: rest => creations rest

/-- The number of times a cursor handle is closed in a list of calls. -/
def closeCount (id : Nat) (calls : List Call) : Nat :=
  calls.count (Call.close id)

/-- A server with nothing in its catalog and no open cursor. -/
def emptyServer : Session :=
  { dbs := [], tables := [], cursors := [], next := 0, trace := [] }

/-- A driver on which everything succeeds: no query fails, confirmations hold one row,
writes report one inserted and one replaced row with generated key `k1`, and decoding
stores the rows in the target. -/
def okDriver : Driver :=
  { fault := fun _ _ => none
    rows := fun _ _ => ["row"]
    write := fun _ _ => { Inserted := 1, Replaced := 1, GeneratedKeys := ["k1"] }
    readErr := fun _ => none
    decodeOne := fun row _ => (none, [row])
    decodeAll := fun rows _ => (none, rows) }

/-- The calls made between an earlier state and a later one. -/
def newCalls (before after : Session) : List Call :=
  after.trace.drop before.trace.length

/-- A table reference used in the concrete instances. -/
def userTable : TableRef := { db := "lyceum", name := "user" }

/-- A driver like `okDriver`, except that the insert response reports one inserted row
and no generated key, as the server does for a document that carries its own primary
key. -/
def ownKeyDriver : Driver :=
  { okDriver with
    write := fun _ _ => { Inserted := 1, Replaced := 0, GeneratedKeys := [] } }

/-- A driver like `okDriver`, except that every write reports zero affected rows. -/
def zeroCountDriver : Driver :=
  { okDriver with
    write := fun _ _ => { Inserted := 0, Replaced := 0, GeneratedKeys := [] } }

/-- A driver like `okDriver`, except that every query yields no row. -/
def noRowDriver : Driver :=
  { okDriver with rows := fun _ _ => [] }

/-- A driver on which executing any query fails with the same error. -/
def downDriver : Driver :=
  { okDriver with fault := fun _ _ => some (Err.driver "connection refused") }

/-- Listings succeed on a driver: neither executing a listing nor draining its cursor
fails. -/
def Driver.ListingsSucceed (d : Driver) : Prop :=
  (∀ s, d.fault Term.dbList s = none) ∧
  (∀ db s, d.fault (Term.tableList db) s = none) ∧
  (∀ c : Cursor, c.term.isListing = true → d.readErr c = none)

/-- Create commands succeed on a driver: executing one never fails. -/
def Driver.CreatesSucceed (d : Driver) : Prop :=
  (∀ name s, d.fault (Term.dbCreate name) s = none) ∧
  (∀ db name s, d.fault (Term.tableCreate db name) s = none)

/-- Creation confirmations can be read on a driver: the cursor of a create command holds a
row and draining it does not fail. -/
def Driver.ConfirmationsSucceed (d : Driver) : Prop :=
  ∀ (t : Term) (s : Session) (id : Nat), t.isCreate = true →
    Cursor.OneRaw d { id := id, term := t, rows := d.rows t s } = none

/-- The catalog holds database `lyceum` and its six tables. -/
def Session.Provisioned (s : Session) : Prop :=
  "lyceum" ∈ s.dbs ∧ ("lyceum", "artifact") ∈ s.tables ∧ ("lyceum", "item") ∈ s.tables ∧
  ("lyceum", "library") ∈ s.tables ∧ ("lyceum", "organization") ∈ s.tables ∧
  ("lyceum", "role") ∈ s.tables ∧ ("lyceum", "user") ∈ s.tables

/-- A driver like `okDriver`, except that listing the databases always fails. -/
def dbListDownDriver : Driver :=
  { okDriver with
    fault := fun t _ => if t = Term.dbList then some (Err.driver "timeout") else none }

/-- A driver like `okDriver`, except that creating table `user` of database `lyceum`
always fails. -/
def userCreateDownDriver : Driver :=
  { okDriver with
    fault := fun t _ =>
      if t = Term.tableCreate "lyceum" "user" then some (Err.driver "permission denied")
      else none }

/-- A driver like `okDriver`, except that a creation confirmation holds no row. -/
def noConfirmDriver : Driver :=
  { okDriver with rows := fun _ _ => [] }

/-! # Theorems -/

/-! ## Document operations: theorems -/

/-- C5: when the first query of a document operation fails to execute with `e`, the
operation returns exactly `e`, the target is untouched, and the only driver call made is
that one query. -/
theorem crud_propagates_query_failure (d : Driver) (e : Err) (key : String) (doc : Doc)
    (model : Model) (table : TableRef) (s : Session) :
    (d.fault (Term.insert table doc) s = some e →
      InsertRethinkDBDocument d doc model table s =
        Outcome.returned (some e, model,
          { s with trace := s.trace ++ [Call.runWrite (Term.insert table doc)] })) ∧
    (d.fault (Term.get table key) s = some e →
      GetRethinkDBDocument d key model table s =
        (some e, model, { s with trace := s.trace ++ [Call.run (Term.get table key)] })) ∧
    (d.fault (Term.scan table) s = some e →
      GetRethinkDBAllDocuments d model table s =
        (some e, model, { s with trace := s.trace ++ [Call.run (Term.scan table)] })) ∧
    (d.fault (Term.update table key doc) s = some e →
      UpdateRethinkDBDocument d key doc model table s =
        (some e, model,
          { s with trace := s.trace ++ [Call.runWrite (Term.update table key doc)] })) ∧
    (d.fault (Term.delete table key) s = some e →
      DeleteRethinkDBDocument d key table s =
        (some e, { s with trace := s.trace ++ [Call.run (Term.delete table key)] })) := by
  refine ⟨?_, ?_, ?_, ?_, ?_⟩ <;> intro h
  · simp [InsertRethinkDBDocument, Term.RunWrite, h]
  · simp [GetRethinkDBDocument, Term.Run, h]
  · simp [GetRethinkDBAllDocuments, Term.Run, h]
  · simp [UpdateRethinkDBDocument, Term.RunWrite, h]
  · simp [DeleteRethinkDBDocument, Term.Run, h]

/-- C3: when the insert executes without error, a response with inserted count 1 and first
generated key `K` makes Create return exactly what Read of `K` returns in the state the
insert left; a response with any other inserted count makes Create return the unexpected
document count error with the target untouched and the insert as the only driver call. -/
theorem insert_roundtrip_and_count (d : Driver) (doc : Doc) (model : Model)
    (table : TableRef) (s : Session) (hrun : d.fault (Term.insert table doc) s = none) :
    (∀ K rest, (d.write (Term.insert table doc) s).Inserted = 1 →
      (d.write (Term.insert table doc) s).GeneratedKeys = K :: rest →
      InsertRethinkDBDocument d doc model table s =
        Outcome.returned (GetRethinkDBDocument d K model table
          { s with trace := s.trace ++ [Call.runWrite (Term.insert table doc)] })) ∧
    ((d.write (Term.insert table doc) s).Inserted ≠ 1 →
      InsertRethinkDBDocument d doc model table s =
        Outcome.returned
          (some (Err.insertedCount (d.write (Term.insert table doc) s).Inserted), model,
            { s with trace := s.trace ++ [Call.runWrite (Term.insert table doc)] })) := by
  refine ⟨?_, ?_⟩
  · intro K rest h1 hk
    simp [InsertRethinkDBDocument, Term.RunWrite, hrun, h1, hk, Session.apply]
  · intro h1
    simp [InsertRethinkDBDocument, Term.RunWrite, hrun, h1, Session.apply]

/-- C4: when the update executes without error, a response with replaced count 1 makes
Update return exactly what Read of the same key returns in the state the update left; a
response with any other replaced count makes Update return the unexpected document
replaced count error with the target untouched and the update as the only driver call. -/
theorem update_roundtrip_and_count (d : Driver) (id : String) (doc : Doc) (model : Model)
    (table : TableRef) (s : Session) (hrun : d.fault (Term.update table id doc) s = none) :
    ((d.write (Term.update table id doc) s).Replaced = 1 →
      UpdateRethinkDBDocument d id doc model table s =
        GetRethinkDBDocument d id model table
          { s with trace := s.trace ++ [Call.runWrite (Term.update table id doc)] }) ∧
    ((d.write (Term.update table id doc) s).Replaced ≠ 1 →
      UpdateRethinkDBDocument d id doc model table s =
        (some (Err.replacedCount (d.write (Term.update table id doc) s).Replaced), model,
          { s with trace := s.trace ++ [Call.runWrite (Term.update table id doc)] })) := by
  refine ⟨?_, ?_⟩ <;> intro h1 <;>
    simp [UpdateRethinkDBDocument, Term.RunWrite, hrun, h1, Session.apply]

/-- C6: when the lookup executes without error, Read returns exactly the outcome of
decoding one result from the cursor: the empty-result error with the target untouched when
the lookup yields no row, and the decode outcome of the first row when it yields one. -/
theorem get_returns_decode_outcome (d : Driver) (key : String) (model : Model)
    (table : TableRef) (s : Session) (hrun : d.fault (Term.get table key) s = none) :
    ((GetRethinkDBDocument d key model table s).1,
        (GetRethinkDBDocument d key model table s).2.1) =
      Cursor.One d { id := s.next, term := Term.get table key,
                     rows := d.rows (Term.get table key) s } model ∧
    (d.rows (Term.get table key) s = [] →
      (GetRethinkDBDocument d key model table s).1 = some Err.emptyResult ∧
      (GetRethinkDBDocument d key model table s).2.1 = model) ∧
    (∀ row rest, d.rows (Term.get table key) s = row :: rest →
      ((GetRethinkDBDocument d key model table s).1,
        (GetRethinkDBDocument d key model table s).2.1) = d.decodeOne row model) := by
  refine ⟨?_, ?_, ?_⟩
  · simp [GetRethinkDBDocument, Term.Run, hrun, Driver.response]
  · intro h0
    simp [GetRethinkDBDocument, Term.Run, hrun, Driver.response, Cursor.One, h0]
  · intro row rest h0
    simp [GetRethinkDBDocument, Term.Run, hrun, Driver.response, Cursor.One, h0]

/-- C7: Delete returns an error exactly when the delete query fails to execute, and then
it is that error; after a successfully executed delete it returns no error, whatever rows
the response holds. -/
theorem delete_error_iff_query_fails (d : Driver) (key : String) (table : TableRef)
    (s : Session) :
    ((DeleteRethinkDBDocument d key table s).1 ≠ none ↔
      d.fault (Term.delete table key) s ≠ none) ∧
    (DeleteRethinkDBDocument d key table s).1 = d.fault (Term.delete table key) s := by
  cases h : d.fault (Term.delete table key) s <;>
    simp [DeleteRethinkDBDocument, Term.Run, h]

/-- C8: for Read, ReadAll and Delete, whatever the query and the decode step do, the open
cursors after the call are those before it, and among the calls made the cursor the
operation obtained (handle `s.next`, when the query succeeded) is closed exactly once and
no other cursor is closed. -/
theorem cursors_released_on_every_path (d : Driver) (key : String) (model : Model)
    (table : TableRef) (s : Session) :
    ((GetRethinkDBDocument d key model table s).2.2.cursors = s.cursors ∧
      ∀ id, closeCount id (newCalls s (GetRethinkDBDocument d key model table s).2.2) =
        if d.fault (Term.get table key) s = none ∧ id = s.next then 1 else 0) ∧
    ((GetRethinkDBAllDocuments d model table s).2.2.cursors = s.cursors ∧
      ∀ id, closeCount id (newCalls s (GetRethinkDBAllDocuments d model table s).2.2) =
        if d.fault (Term.scan table) s = none ∧ id = s.next then 1 else 0) ∧
    ((DeleteRethinkDBDocument d key table s).2.cursors = s.cursors ∧
      ∀ id, closeCount id (newCalls s (DeleteRethinkDBDocument d key table s).2) =
        if d.fault (Term.delete table key) s = none ∧ id = s.next then 1 else 0) := by
  refine ⟨?_, ?_, ?_⟩
  · cases h : d.fault (Term.get table key) s
    · refine ⟨by simp [GetRethinkDBDocument, Term.Run, h, Cursor.Close, Session.apply], ?_⟩
      intro id
      by_cases hid : id = s.next <;>
        simp [GetRethinkDBDocument, Term.Run, h, Cursor.Close, Session.apply, newCalls,
          closeCount, hid, List.count_cons]
    · simp [GetRethinkDBDocument, Term.Run, h, newCalls, closeCount]
  · cases h : d.fault (Term.scan table) s
    · refine ⟨?_, ?_⟩
      · simp only [GetRethinkDBAllDocuments, Term.Run, h]
        split <;> simp [Cursor.Close, Session.apply]
      · intro id
        simp only [GetRethinkDBAllDocuments, Term.Run, h]
        by_cases hid : id = s.next <;> split <;>
          simp [Cursor.Close, Session.apply, newCalls, closeCount, hid, List.count_cons]
    · simp [GetRethinkDBAllDocuments, Term.Run, h, newCalls, closeCount]
  · cases h : d.fault (Term.delete table key) s
    · refine ⟨by simp [DeleteRethinkDBDocument, Term.Run, h, Cursor.Close, Session.apply], ?_⟩
      intro id
      by_cases hid : id = s.next <;>
        simp [DeleteRethinkDBDocument, Term.Run, h, Cursor.Close, Session.apply, newCalls,
          closeCount, hid, List.count_cons]
    · simp [DeleteRethinkDBDocument, Term.Run, h, newCalls, closeCount]

/-- Whenever the insert executes, reports one inserted row and reports no generated key,
Create panics on the index expression. -/
theorem insert_panics_of_no_generated_key (d : Driver) (doc : Doc) (model : Model)
    (table : TableRef) (s : Session) (hrun : d.fault (Term.insert table doc) s = none)
    (hone : (d.write (Term.insert table doc) s).Inserted = 1)
    (hkeys : (d.write (Term.insert table doc) s).GeneratedKeys = []) :
    InsertRethinkDBDocument d doc model table s =
      Outcome.panicked "runtime error: index out of range [0] with length 0" := by
  simp [InsertRethinkDBDocument, Term.RunWrite, hrun, hone, hkeys]

/-- C10 fails on the code: for an insert response that reports one inserted row and no
generated key, Create indexes the empty key list and panics instead of returning. -/
theorem insert_panics_without_generated_key :
    ownKeyDriver.fault (Term.insert userTable "doc") emptyServer = none ∧
    (ownKeyDriver.write (Term.insert userTable "doc") emptyServer).Inserted = 1 ∧
    (ownKeyDriver.write (Term.insert userTable "doc") emptyServer).GeneratedKeys = [] ∧
    InsertRethinkDBDocument ownKeyDriver "doc" [] userTable emptyServer =
      Outcome.panicked "runtime error: index out of range [0] with length 0" := by
  refine ⟨rfl, rfl, rfl, ?_⟩
  simp [InsertRethinkDBDocument, Term.RunWrite, ownKeyDriver, okDriver]

/-! ## Provisioning: lemmas -/

theorem containsName_eq_true_iff (name : String) (rows : List Row) :
    containsName name rows = true ↔ name ∈ rows := by
  induction rows with
  | nil => simp [containsName]
  | cons x rest ih =>
    by_cases hx : x = name
    · simp [containsName, hx]
    · have hx2 : ¬ name = x := fun h => hx h.symm
      simp [containsName, hx, hx2, ih]

theorem containsName_eq_false_iff (name : String) (rows : List Row) :
    containsName name rows = false ↔ name ∉ rows := by
  rw [← containsName_eq_true_iff]; simp

theorem mem_tablesOf (s : Session) (db name : String) :
    name ∈ s.tablesOf db ↔ (db, name) ∈ s.tables := by
  simp [Session.tablesOf]

theorem databaseExists_of_listings (d : Driver) (hl : d.ListingsSucceed) (name : String)
    (s : Session) :
    databaseExists d name s =
      (containsName name s.dbs,
        { s with trace := s.trace ++ [Call.run Term.dbList, Call.close s.next],
                 next := s.next + 1 }) := by
  obtain ⟨h1, _, h3⟩ := hl
  simp [databaseExists, Term.Run, h1, Cursor.AllRaw, h3, Term.isListing, Cursor.Close,
    Session.apply, Driver.response]

theorem tableExists_of_listings (d : Driver) (hl : d.ListingsSucceed) (db name : String)
    (s : Session) :
    tableExists d db name s =
      (containsName name (s.tablesOf db),
        { s with trace := s.trace ++ [Call.run (Term.tableList db), Call.close s.next],
                 next := s.next + 1 }) := by
  obtain ⟨_, h2, h3⟩ := hl
  simp [tableExists, Term.Run, h2, Cursor.AllRaw, h3, Term.isListing, Cursor.Close,
    Session.apply, Driver.response]

theorem createDatabase_present (d : Driver) (hl : d.ListingsSucceed) (name : String)
    (s : Session) (h : name ∈ s.dbs) :
    createDatabase d name s =
      (none, { s with trace := s.trace ++ [Call.run Term.dbList, Call.close s.next],
                      next := s.next + 1 }) := by
  have hc : containsName name s.dbs = true := (containsName_eq_true_iff _ _).2 h
  simp [createDatabase, databaseExists_of_listings d hl, hc]

theorem createTable_present (d : Driver) (hl : d.ListingsSucceed) (db name : String)
    (s : Session) (h : (db, name) ∈ s.tables) :
    createTable d db name s =
      (none, { s with trace := s.trace ++ [Call.run (Term.tableList db), Call.close s.next],
                      next := s.next + 1 }) := by
  have hc : containsName name (s.tablesOf db) = true :=
    (containsName_eq_true_iff _ _).2 ((mem_tablesOf s db name).2 h)
  simp [createTable, tableExists_of_listings d hl, hc]

theorem createDatabase_absent (d : Driver) (hl : d.ListingsSucceed) (hc : d.CreatesSucceed)
    (name : String) (s : Session) (h : name ∉ s.dbs) :
    (createDatabase d name s).2 =
      { s with dbs := name :: s.dbs
               trace := s.trace ++ [Call.run Term.dbList, Call.close s.next,
                          Call.run (Term.dbCreate name), Call.close (s.next + 1)]
               next := s.next + 2 } := by
  have hn : containsName name s.dbs = false := (containsName_eq_false_iff _ _).2 h
  simp only [createDatabase, databaseExists_of_listings d hl, hn, Term.Run, hc.1]
  split_ifs <;> simp [Cursor.Close, Session.apply]

theorem createTable_absent (d : Driver) (hl : d.ListingsSucceed) (hc : d.CreatesSucceed)
    (db name : String) (s : Session) (h : (db, name) ∉ s.tables) :
    (createTable d db name s).2 =
      { s with tables := (db, name) :: s.tables
               trace := s.trace ++ [Call.run (Term.tableList db), Call.close s.next,
                          Call.run (Term.tableCreate db name), Call.close (s.next + 1)]
               next := s.next + 2 } := by
  have hn : containsName name (s.tablesOf db) = false :=
    (containsName_eq_false_iff _ _).2 (fun hm => h ((mem_tablesOf s db name).1 hm))
  simp only [createTable, tableExists_of_listings d hl, hn, Term.Run, hc.2]
  split_ifs <;> simp [Cursor.Close, Session.apply]

theorem createDatabase_ensures (d : Driver) (hl : d.ListingsSucceed) (hc : d.CreatesSucceed)
    (name : String) (s : Session) :
    name ∈ (createDatabase d name s).2.dbs ∧
    (createDatabase d name s).2.tables = s.tables := by
  by_cases h : name ∈ s.dbs
  · simp [createDatabase_present d hl name s h, h]
  · simp [createDatabase_absent d hl hc name s h]

theorem createTable_ensures (d : Driver) (hl : d.ListingsSucceed) (hc : d.CreatesSucceed)
    (db name : String) (s : Session) :
    (db, name) ∈ (createTable d db name s).2.tables ∧
    (∀ p ∈ s.tables, p ∈ (createTable d db name s).2.tables) ∧
    (createTable d db name s).2.dbs = s.dbs := by
  by_cases h : (db, name) ∈ s.tables
  · simp [createTable_present d hl db name s h, h]
  · rw [createTable_absent d hl hc db name s h]
    refine ⟨by simp, ?_, rfl⟩
    intro p hp
    exact List.mem_cons_of_mem _ hp

/-- After one run over a driver whose listings and create commands succeed, the catalog
holds the database and its six tables. -/
theorem initialize_provisions (d : Driver) (hl : d.ListingsSucceed) (hc : d.CreatesSucceed)
    (s : Session) : (initializeRethinkDB d s).2.Provisioned := by
  simp only [initializeRethinkDB]
  generalize h0 : (createDatabase d "lyceum" s).2 = s0
  generalize h1 : (createTable d "lyceum" "artifact" s0).2 = s1
  generalize h2 : (createTable d "lyceum" "item" s1).2 = s2
  generalize h3 : (createTable d "lyceum" "library" s2).2 = s3
  generalize h4 : (createTable d "lyceum" "organization" s3).2 = s4
  generalize h5 : (createTable d "lyceum" "role" s4).2 = s5
  generalize h6 : (createTable d "lyceum" "user" s5).2 = s6
  have e0 := createDatabase_ensures d hl hc "lyceum" s
  have e1 := createTable_ensures d hl hc "lyceum" "artifact" s0
  have e2 := createTable_ensures d hl hc "lyceum" "item" s1
  have e3 := createTable_ensures d hl hc "lyceum" "library" s2
  have e4 := createTable_ensures d hl hc "lyceum" "organization" s3
  have e5 := createTable_ensures d hl hc "lyceum" "role" s4
  have e6 := createTable_ensures d hl hc "lyceum" "user" s5
  rw [h0] at e0; rw [h1] at e1; rw [h2] at e2; rw [h3] at e3
  rw [h4] at e4; rw [h5] at e5; rw [h6] at e6
  refine ⟨?_, ?_, ?_, ?_, ?_, ?_, ?_⟩
  · rw [e6.2.2, e5.2.2, e4.2.2, e3.2.2, e2.2.2, e1.2.2]; exact e0.1
  · exact e6.2.1 _ (e5.2.1 _ (e4.2.1 _ (e3.2.1 _ (e2.2.1 _ e1.1))))
  · exact e6.2.1 _ (e5.2.1 _ (e4.2.1 _ (e3.2.1 _ e2.1)))
  · exact e6.2.1 _ (e5.2.1 _ (e4.2.1 _ e3.1))
  · exact e6.2.1 _ (e5.2.1 _ e4.1)
  · exact e6.2.1 _ e5.1
  · exact e6.1

/-- On a provisioned catalog a run over a driver whose listings succeed makes the seven
listings, closes their cursors and nothing else. -/
theorem initialize_of_provisioned (d : Driver) (hl : d.ListingsSucceed) (s : Session)
    (hp : s.Provisioned) :
    initializeRethinkDB d s =
      (none, { s with
        trace := s.trace ++
          [Call.run Term.dbList, Call.close s.next,
           Call.run (Term.tableList "lyceum"), Call.close (s.next + 1),
           Call.run (Term.tableList "lyceum"), Call.close (s.next + 2),
           Call.run (Term.tableList "lyceum"), Call.close (s.next + 3),
           Call.run (Term.tableList "lyceum"), Call.close (s.next + 4),
           Call.run (Term.tableList "lyceum"), Call.close (s.next + 5),
           Call.run (Term.tableList "lyceum"), Call.close (s.next + 6)]
        next := s.next + 7 }) := by
  obtain ⟨p0, p1, p2, p3, p4, p5, p6⟩ := hp
  simp only [initializeRethinkDB]
  rw [createDatabase_present d hl _ _ p0]
  rw [createTable_present d hl "lyceum" "artifact" _ (by exact p1)]
  rw [createTable_present d hl "lyceum" "item" _ (by exact p2)]
  rw [createTable_present d hl "lyceum" "library" _ (by exact p3)]
  rw [createTable_present d hl "lyceum" "organization" _ (by exact p4)]
  rw [createTable_present d hl "lyceum" "role" _ (by exact p5)]
  rw [createTable_present d hl "lyceum" "user" _ (by exact p6)]
  simp [List.append_assoc]

/-- C2, as amended: over a driver whose listings succeed and whose create commands succeed
(adding the created name to the catalog), from every starting state the second of two runs
in sequence returns no error, issues no create command and leaves catalog and open cursors
unchanged. -/
theorem initialize_idempotent (d : Driver) (hl : d.ListingsSucceed) (hc : d.CreatesSucceed)
    (s : Session) :
    (initializeRethinkDB d (initializeRethinkDB d s).2).1 = none ∧
    creations (newCalls (initializeRethinkDB d s).2
      (initializeRethinkDB d (initializeRethinkDB d s).2).2) = [] ∧
    (initializeRethinkDB d (initializeRethinkDB d s).2).2.dbs =
      (initializeRethinkDB d s).2.dbs ∧
    (initializeRethinkDB d (initializeRethinkDB d s).2).2.tables =
      (initializeRethinkDB d s).2.tables ∧
    (initializeRethinkDB d (initializeRethinkDB d s).2).2.cursors =
      (initializeRethinkDB d s).2.cursors := by
  have hp := initialize_provisions d hl hc s
  rw [initialize_of_provisioned d hl _ hp]
  simp [newCalls, creations, Term.isCreate]

/-- C9: on a server with no database and no table, over a driver whose listings and create
commands succeed, one run returns no error and issues exactly seven create commands: the
database `lyceum`, then its tables `artifact`, `item`, `library`, `organization`, `role`,
`user` in that order, each once; afterwards the catalog holds exactly that database and
those six tables. -/
theorem initialize_empty_server (d : Driver) (hl : d.ListingsSucceed)
    (hc : d.CreatesSucceed) (s : Session) (hdbs : s.dbs = []) (htables : s.tables = []) :
    (initializeRethinkDB d s).1 = none ∧
    creations (newCalls s (initializeRethinkDB d s).2) =
      [Term.dbCreate "lyceum", Term.tableCreate "lyceum" "artifact",
       Term.tableCreate "lyceum" "item", Term.tableCreate "lyceum" "library",
       Term.tableCreate "lyceum" "organization", Term.tableCreate "lyceum" "role",
       Term.tableCreate "lyceum" "user"] ∧
    (initializeRethinkDB d s).2.dbs = ["lyceum"] ∧
    (initializeRethinkDB d s).2.tables =
      [("lyceum", "user"), ("lyceum", "role"), ("lyceum", "organization"),
       ("lyceum", "library"), ("lyceum", "item"), ("lyceum", "artifact")] ∧
    (initializeRethinkDB d s).2.Provisioned := by
  refine ⟨rfl, ?_, ?_, ?_, initialize_provisions d hl hc s⟩
  all_goals
    simp only [initializeRethinkDB]
    rw [createDatabase_absent d hl hc _ _ (by simp [hdbs])]
    rw [createTable_absent d hl hc "lyceum" "artifact" _ (by simp [htables])]
    rw [createTable_absent d hl hc "lyceum" "item" _ (by simp [htables])]
    rw [createTable_absent d hl hc "lyceum" "library" _ (by simp [htables])]
    rw [createTable_absent d hl hc "lyceum" "organization" _ (by simp [htables])]
    rw [createTable_absent d hl hc "lyceum" "role" _ (by simp [htables])]
    rw [createTable_absent d hl hc "lyceum" "user" _ (by simp [htables])]
    simp [newCalls, creations, Term.isCreate, hdbs, htables]

theorem okDriver_listingsSucceed : okDriver.ListingsSucceed :=
  ⟨fun _ => rfl, fun _ _ => rfl, fun _ _ => rfl⟩

theorem okDriver_createsSucceed : okDriver.CreatesSucceed :=
  ⟨fun _ _ => rfl, fun _ _ _ => rfl⟩

theorem userCreateDownDriver_listingsSucceed : userCreateDownDriver.ListingsSucceed :=
  ⟨fun _ => rfl, fun _ _ => rfl, fun _ _ => rfl⟩

/-- The result of every run is `nil`, whatever the seven steps returned. -/
theorem initialize_returns_nil (d : Driver) (s : Session) :
    (initializeRethinkDB d s).1 = none := rfl

/-- C1 fails on the code: on a driver whose database listing fails with an error, on an
empty server, the run returns `nil`. -/
theorem initialize_swallows_listing_failure :
    dbListDownDriver.fault Term.dbList emptyServer = some (Err.driver "timeout") ∧
    (initializeRethinkDB dbListDownDriver emptyServer).1 = none :=
  ⟨rfl, rfl⟩

theorem databaseExists_eq (d : Driver) (name : String) (s : Session) :
    databaseExists d name s =
      match d.fault Term.dbList s with
      | some _ => (false, { s with trace := s.trace ++ [Call.run Term.dbList] })
      | none =>
        match d.readErr { id := s.next, term := Term.dbList, rows := s.dbs } with
        | some _ =>
          (false, { s with trace := s.trace ++ [Call.run Term.dbList, Call.close s.next]
                           next := s.next + 1 })
        | none =>
          (containsName name s.dbs,
            { s with trace := s.trace ++ [Call.run Term.dbList, Call.close s.next]
                     next := s.next + 1 }) := by
  cases hf : d.fault Term.dbList s
  · cases hr : d.readErr { id := s.next, term := Term.dbList, rows := s.dbs } <;>
      simp [databaseExists, Term.Run, hf, Cursor.AllRaw, Driver.response, hr, Cursor.Close,
        Session.apply]
  · simp [databaseExists, Term.Run, hf]

theorem tableExists_eq (d : Driver) (db name : String) (s : Session) :
    tableExists d db name s =
      match d.fault (Term.tableList db) s with
      | some _ => (false, { s with trace := s.trace ++ [Call.run (Term.tableList db)] })
      | none =>
        match d.readErr { id := s.next, term := Term.tableList db, rows := s.tablesOf db } with
        | some _ =>
          (false, { s with trace := s.trace ++ [Call.run (Term.tableList db), Call.close s.next]
                           next := s.next + 1 })
        | none =>
          (containsName name (s.tablesOf db),
            { s with trace := s.trace ++ [Call.run (Term.tableList db), Call.close s.next]
                     next := s.next + 1 }) := by
  cases hf : d.fault (Term.tableList db) s
  · cases hr : d.readErr { id := s.next, term := Term.tableList db, rows := s.tablesOf db } <;>
      simp [tableExists, Term.Run, hf, Cursor.AllRaw, Driver.response, hr, Cursor.Close,
        Session.apply]
  · simp [tableExists, Term.Run, hf]

theorem createDatabase_eq (d : Driver) (name : String) (s : Session) :
    createDatabase d name s =
      if (databaseExists d name s).1 = true then (none, (databaseExists d name s).2)
      else
        match d.fault (Term.dbCreate name) (databaseExists d name s).2 with
        | some e =>
          (some e, { (databaseExists d name s).2 with
            trace := (databaseExists d name s).2.trace ++ [Call.run (Term.dbCreate name)] })
        | none =>
          (Cursor.OneRaw d
              { id := (databaseExists d name s).2.next, term := Term.dbCreate name,
                rows := d.rows (Term.dbCreate name) (databaseExists d name s).2 },
            { (databaseExists d name s).2 with
              dbs := name :: (databaseExists d name s).2.dbs
              next := (databaseExists d name s).2.next + 1
              trace := (databaseExists d name s).2.trace ++
                [Call.run (Term.dbCreate name), Call.close (databaseExists d name s).2.next] }) := by
  rcases hx : databaseExists d name s with ⟨b, s1⟩
  cases b
  · cases hf : d.fault (Term.dbCreate name) s1
    · simp only [createDatabase, hx, Term.Run, hf, Driver.response]
      split_ifs <;> simp_all [Cursor.Close, Session.apply]
    · simp [createDatabase, hx, Term.Run, hf]
  · simp [createDatabase, hx]

theorem createTable_eq (d : Driver) (db name : String) (s : Session) :
    createTable d db name s =
      if (tableExists d db name s).1 = true then (none, (tableExists d db name s).2)
      else
        match d.fault (Term.tableCreate db name) (tableExists d db name s).2 with
        | some e =>
          (some e, { (tableExists d db name s).2 with
            trace := (tableExists d db name s).2.trace ++ [Call.run (Term.tableCreate db name)] })
        | none =>
          (Cursor.OneRaw d
              { id := (tableExists d db name s).2.next, term := Term.tableCreate db name,
                rows := d.rows (Term.tableCreate db name) (tableExists d db name s).2 },
            { (tableExists d db name s).2 with
              tables := (db, name) :: (tableExists d db name s).2.tables
              next := (tableExists d db name s).2.next + 1
              trace := (tableExists d db name s).2.trace ++
                [Call.run (Term.tableCreate db name),
                 Call.close (tableExists d db name s).2.next] }) := by
  rcases hx : tableExists d db name s with ⟨b, s1⟩
  cases b
  · cases hf : d.fault (Term.tableCreate db name) s1
    · simp only [createTable, hx, Term.Run, hf, Driver.response]
      split_ifs <;> simp_all [Cursor.Close, Session.apply]
    · simp [createTable, hx, Term.Run, hf]
  · simp [createTable, hx]

theorem databaseExists_frame (d : Driver) (name : String) (s : Session) :
    (databaseExists d name s).2.dbs = s.dbs ∧
    (databaseExists d name s).2.tables = s.tables ∧
    (∃ l, (databaseExists d name s).2.trace = s.trace ++ l) ∧
    ((databaseExists d name s).1 = true → name ∈ s.dbs) := by
  rw [databaseExists_eq]
  cases d.fault Term.dbList s
  · cases d.readErr { id := s.next, term := Term.dbList, rows := s.dbs }
    · simp [containsName_eq_true_iff]
    · simp
  · simp

theorem tableExists_frame (d : Driver) (db name : String) (s : Session) :
    (tableExists d db name s).2.dbs = s.dbs ∧
    (tableExists d db name s).2.tables = s.tables ∧
    (∃ l, (tableExists d db name s).2.trace = s.trace ++ l) ∧
    ((tableExists d db name s).1 = true → (db, name) ∈ s.tables) := by
  rw [tableExists_eq]
  cases d.fault (Term.tableList db) s
  · cases d.readErr { id := s.next, term := Term.tableList db, rows := s.tablesOf db }
    · simp [containsName_eq_true_iff, mem_tablesOf]
    · simp
  · simp

theorem createDatabase_trace_grows (d : Driver) (name : String) (s : Session) :
    ∃ l, (createDatabase d name s).2.trace = s.trace ++ l := by
  obtain ⟨_, _, ⟨l, hl⟩, _⟩ := databaseExists_frame d name s
  rw [createDatabase_eq]
  split_ifs
  · exact ⟨l, hl⟩
  · cases d.fault (Term.dbCreate name) (databaseExists d name s).2
    · exact ⟨l ++ [Call.run (Term.dbCreate name),
        Call.close (databaseExists d name s).2.next], by simp [hl]⟩
    · exact ⟨l ++ [Call.run (Term.dbCreate name)], by simp [hl]⟩

theorem createTable_trace_grows (d : Driver) (db name : String) (s : Session) :
    ∃ l, (createTable d db name s).2.trace = s.trace ++ l := by
  obtain ⟨_, _, ⟨l, hl⟩, _⟩ := tableExists_frame d db name s
  rw [createTable_eq]
  split_ifs
  · exact ⟨l, hl⟩
  · cases d.fault (Term.tableCreate db name) (tableExists d db name s).2
    · exact ⟨l ++ [Call.run (Term.tableCreate db name),
        Call.close (tableExists d db name s).2.next], by simp [hl]⟩
    · exact ⟨l ++ [Call.run (Term.tableCreate db name)], by simp [hl]⟩

theorem initialize_trace_after_first_step (d : Driver) (s : Session) :
    ∃ l, (initializeRethinkDB d s).2.trace = (createDatabase d "lyceum" s).2.trace ++ l := by
  simp only [initializeRethinkDB]
  generalize (createDatabase d "lyceum" s).2 = s0
  obtain ⟨l1, h1⟩ := createTable_trace_grows d "lyceum" "artifact" s0
  generalize (createTable d "lyceum" "artifact" s0).2 = s1 at h1
  obtain ⟨l2, h2⟩ := createTable_trace_grows d "lyceum" "item" s1
  generalize (createTable d "lyceum" "item" s1).2 = s2 at h2
  obtain ⟨l3, h3⟩ := createTable_trace_grows d "lyceum" "library" s2
  generalize (createTable d "lyceum" "library" s2).2 = s3 at h3
  obtain ⟨l4, h4⟩ := createTable_trace_grows d "lyceum" "organization" s3
  generalize (createTable d "lyceum" "organization" s3).2 = s4 at h4
  obtain ⟨l5, h5⟩ := createTable_trace_grows d "lyceum" "role" s4
  generalize (createTable d "lyceum" "role" s4).2 = s5 at h5
  obtain ⟨l6, h6⟩ := createTable_trace_grows d "lyceum" "user" s5
  exact ⟨l1 ++ l2 ++ l3 ++ l4 ++ l5 ++ l6, by simp [h6, h5, h4, h3, h2, h1]⟩

/-- Whatever the listing does, a create-database step over create commands that succeed
leaves the name in the catalog and removes nothing from it. -/
theorem createDatabase_adds (d : Driver) (hc : d.CreatesSucceed) (name : String)
    (s : Session) :
    name ∈ (createDatabase d name s).2.dbs ∧
    (createDatabase d name s).2.tables = s.tables := by
  obtain ⟨h1, h2, _, h4⟩ := databaseExists_frame d name s
  rw [createDatabase_eq]
  split_ifs with hb
  · exact ⟨by rw [h1]; exact h4 hb, h2⟩
  · simp [hc.1, h2]

/-- Whatever the listing does, a create-table step over create commands that succeed
leaves the table in the catalog and removes nothing from it. -/
theorem createTable_adds (d : Driver) (hc : d.CreatesSucceed) (db name : String)
    (s : Session) :
    (db, name) ∈ (createTable d db name s).2.tables ∧
    (∀ p ∈ s.tables, p ∈ (createTable d db name s).2.tables) ∧
    (createTable d db name s).2.dbs = s.dbs := by
  obtain ⟨h1, h2, _, h4⟩ := tableExists_frame d db name s
  rw [createTable_eq]
  split_ifs with hb
  · exact ⟨by rw [h2]; exact h4 hb, by rw [h2]; exact fun p hp => hp, h1⟩
  · simp only [hc.2]
    refine ⟨by simp, ?_, h1⟩
    intro p hp
    simp [h2, hp]

theorem createDatabase_nil (d : Driver) (hc : d.CreatesSucceed)
    (hk : d.ConfirmationsSucceed) (name : String) (s : Session) :
    (createDatabase d name s).1 = none := by
  rw [createDatabase_eq]
  split_ifs
  · rfl
  · simp [hc.1, hk (Term.dbCreate name) _ _ rfl]

theorem createTable_nil (d : Driver) (hc : d.CreatesSucceed)
    (hk : d.ConfirmationsSucceed) (db name : String) (s : Session) :
    (createTable d db name s).1 = none := by
  rw [createTable_eq]
  split_ifs
  · rfl
  · simp [hc.2, hk (Term.tableCreate db name) _ _ rfl]

/-- Over create commands that succeed one run leaves the database and its six tables in
the catalog, whether the listings fail or not. -/
theorem initialize_provisions_despite_listings (d : Driver) (hc : d.CreatesSucceed)
    (s : Session) : (initializeRethinkDB d s).2.Provisioned := by
  simp only [initializeRethinkDB]
  have e0 := createDatabase_adds d hc "lyceum" s
  generalize (createDatabase d "lyceum" s).2 = s0 at e0 ⊢
  have e1 := createTable_adds d hc "lyceum" "artifact" s0
  generalize (createTable d "lyceum" "artifact" s0).2 = s1 at e1 ⊢
  have e2 := createTable_adds d hc "lyceum" "item" s1
  generalize (createTable d "lyceum" "item" s1).2 = s2 at e2 ⊢
  have e3 := createTable_adds d hc "lyceum" "library" s2
  generalize (createTable d "lyceum" "library" s2).2 = s3 at e3 ⊢
  have e4 := createTable_adds d hc "lyceum" "organization" s3
  generalize (createTable d "lyceum" "organization" s3).2 = s4 at e4 ⊢
  have e5 := createTable_adds d hc "lyceum" "role" s4
  generalize (createTable d "lyceum" "role" s4).2 = s5 at e5 ⊢
  have e6 := createTable_adds d hc "lyceum" "user" s5
  generalize (createTable d "lyceum" "user" s5).2 = s6 at e6 ⊢
  refine ⟨?_, ?_, ?_, ?_, ?_, ?_, ?_⟩
  · rw [e6.2.2, e5.2.2, e4.2.2, e3.2.2, e2.2.2, e1.2.2]; exact e0.1
  · exact e6.2.1 _ (e5.2.1 _ (e4.2.1 _ (e3.2.1 _ (e2.2.1 _ e1.1))))
  · exact e6.2.1 _ (e5.2.1 _ (e4.2.1 _ (e3.2.1 _ e2.1)))
  · exact e6.2.1 _ (e5.2.1 _ (e4.2.1 _ e3.1))
  · exact e6.2.1 _ (e5.2.1 _ e4.1)
  · exact e6.2.1 _ e5.1
  · exact e6.1

theorem take_newCalls_of_prefix (s t u : Session) (p l m : List Call)
    (ht : t.trace = s.trace ++ (p ++ l)) (hu : u.trace = t.trace ++ m) :
    (newCalls s u).take p.length = p := by
  simp [newCalls, hu, ht]

/-- C1, as amended. (a) A listing that fails, on execution or while its rows are read, is
not returned: the existence check answers false and the step issues its create command as
the next query; after a database listing that fails to execute, the second call of
`initializeRethinkDB` is the create of database `lyceum`. (b) When the existence check
answered false, `createDatabase` and `createTable` return the error of a create command
that fails to execute unchanged and make no further call, and otherwise return exactly
the outcome of reading the confirmation (the empty-result error when it holds no row)
after closing its cursor. (c) Over create commands that succeed and confirmations that
can be read, every step returns `nil`, and `initializeRethinkDB` returns `nil` and leaves
the database and its six tables in the catalog, whether listings fail or not. -/
theorem provisioning_failure_handling (d : Driver) (db name : String) (s : Session)
    (e : Err) :
    (d.fault Term.dbList s = some e →
      databaseExists d name s =
        (false, { s with trace := s.trace ++ [Call.run Term.dbList] }) ∧
      (newCalls s (createDatabase d name s).2).take 2 =
        [Call.run Term.dbList, Call.run (Term.dbCreate name)] ∧
      (newCalls s (initializeRethinkDB d s).2).take 2 =
        [Call.run Term.dbList, Call.run (Term.dbCreate "lyceum")]) ∧
    (d.fault (Term.tableList db) s = some e →
      tableExists d db name s =
        (false, { s with trace := s.trace ++ [Call.run (Term.tableList db)] }) ∧
      (newCalls s (createTable d db name s).2).take 2 =
        [Call.run (Term.tableList db), Call.run (Term.tableCreate db name)]) ∧
    (d.fault Term.dbList s = none →
      d.readErr { id := s.next, term := Term.dbList, rows := s.dbs } = some e →
      databaseExists d name s =
        (false, { s with trace := s.trace ++ [Call.run Term.dbList, Call.close s.next]
                         next := s.next + 1 }) ∧
      (newCalls s (createDatabase d name s).2).take 3 =
        [Call.run Term.dbList, Call.close s.next, Call.run (Term.dbCreate name)]) ∧
    (d.fault (Term.tableList db) s = none →
      d.readErr { id := s.next, term := Term.tableList db, rows := s.tablesOf db } = some e →
      tableExists d db name s =
        (false, { s with trace := s.trace ++ [Call.run (Term.tableList db), Call.close s.next]
                         next := s.next + 1 }) ∧
      (newCalls s (createTable d db name s).2).take 3 =
        [Call.run (Term.tableList db), Call.close s.next,
         Call.run (Term.tableCreate db name)]) ∧
    ((databaseExists d name s).1 = false →
      d.fault (Term.dbCreate name) (databaseExists d name s).2 = some e →
      createDatabase d name s =
        (some e, { (databaseExists d name s).2 with
          trace := (databaseExists d name s).2.trace ++ [Call.run (Term.dbCreate name)] })) ∧
    ((tableExists d db name s).1 = false →
      d.fault (Term.tableCreate db name) (tableExists d db name s).2 = some e →
      createTable d db name s =
        (some e, { (tableExists d db name s).2 with
          trace := (tableExists d db name s).2.trace ++
            [Call.run (Term.tableCreate db name)] })) ∧
    ((databaseExists d name s).1 = false →
      d.fault (Term.dbCreate name) (databaseExists d name s).2 = none →
      createDatabase d name s =
        (Cursor.OneRaw d
            { id := (databaseExists d name s).2.next, term := Term.dbCreate name,
              rows := d.rows (Term.dbCreate name) (databaseExists d name s).2 },
          { (databaseExists d name s).2 with
            dbs := name :: (databaseExists d name s).2.dbs
            next := (databaseExists d name s).2.next + 1
            trace := (databaseExists d name s).2.trace ++
              [Call.run (Term.dbCreate name),
               Call.close (databaseExists d name s).2.next] }) ∧
      (d.rows (Term.dbCreate name) (databaseExists d name s).2 = [] →
        (createDatabase d name s).1 = some Err.emptyResult)) ∧
    ((tableExists d db name s).1 = false →
      d.fault (Term.tableCreate db name) (tableExists d db name s).2 = none →
      createTable d db name s =
        (Cursor.OneRaw d
            { id := (tableExists d db name s).2.next, term := Term.tableCreate db name,
              rows := d.rows (Term.tableCreate db name) (tableExists d db name s).2 },
          { (tableExists d db name s).2 with
            tables := (db, name) :: (tableExists d db name s).2.tables
            next := (tableExists d db name s).2.next + 1
            trace := (tableExists d db name s).2.trace ++
              [Call.run (Term.tableCreate db name),
               Call.close (tableExists d db name s).2.next] }) ∧
      (d.rows (Term.tableCreate db name) (tableExists d db name s).2 = [] →
        (createTable d db name s).1 = some Err.emptyResult)) ∧
    (d.CreatesSucceed → d.ConfirmationsSucceed →
      (createDatabase d name s).1 = none ∧ (createTable d db name s).1 = none ∧
      (initializeRethinkDB d s).1 = none ∧ (initializeRethinkDB d s).2.Provisioned) := by
  have hdb : ∀ nm, d.fault Term.dbList s = some e →
      (createDatabase d nm s).2.trace =
        s.trace ++ ([Call.run Term.dbList, Call.run (Term.dbCreate nm)] ++
          match d.fault (Term.dbCreate nm)
              { s with trace := s.trace ++ [Call.run Term.dbList] } with
          | some _ => []
          | none => [Call.close s.next]) := by
    intro nm h
    rw [createDatabase_eq, databaseExists_eq]
    simp only [h]
    cases d.fault (Term.dbCreate nm) { s with trace := s.trace ++ [Call.run Term.dbList] } <;>
      simp
  refine ⟨?_, ?_, ?_, ?_, ?_, ?_, ?_, ?_, ?_⟩
  · intro h
    refine ⟨by rw [databaseExists_eq]; simp [h], ?_, ?_⟩
    · exact take_newCalls_of_prefix s _ _ [_, _] _ [] (hdb name h) (by simp)
    · obtain ⟨l, hl⟩ := initialize_trace_after_first_step d s
      exact take_newCalls_of_prefix s _ _ [_, _] _ l (hdb "lyceum" h) hl
  · intro h
    refine ⟨by rw [tableExists_eq]; simp [h], ?_⟩
    rw [createTable_eq, tableExists_eq]
    simp only [h]
    cases d.fault (Term.tableCreate db name)
        { s with trace := s.trace ++ [Call.run (Term.tableList db)] } <;>
      simp [newCalls]
  · intro h1 h2
    refine ⟨by rw [databaseExists_eq]; simp [h1, h2], ?_⟩
    rw [createDatabase_eq, databaseExists_eq]
    simp only [h1, h2]
    cases d.fault (Term.dbCreate name)
        { s with trace := s.trace ++ [Call.run Term.dbList, Call.close s.next]
                 next := s.next + 1 } <;>
      simp [newCalls]
  · intro h1 h2
    refine ⟨by rw [tableExists_eq]; simp [h1, h2], ?_⟩
    rw [createTable_eq, tableExists_eq]
    simp only [h1, h2]
    cases d.fault (Term.tableCreate db name)
        { s with trace := s.trace ++ [Call.run (Term.tableList db), Call.close s.next]
                 next := s.next + 1 } <;>
      simp [newCalls]
  · intro h1 h2
    rw [createDatabase_eq]
    simp [h1, h2]
  · intro h1 h2
    rw [createTable_eq]
    simp [h1, h2]
  · intro h1 h2
    refine ⟨by rw [createDatabase_eq]; simp [h1, h2], ?_⟩
    intro h3
    rw [createDatabase_eq]
    simp [h1, h2, h3, Cursor.OneRaw]
  · intro h1 h2
    refine ⟨by rw [createTable_eq]; simp [h1, h2], ?_⟩
    intro h3
    rw [createTable_eq]
    simp [h1, h2, h3, Cursor.OneRaw]
  · intro hc hk
    exact ⟨createDatabase_nil d hc hk name s, createTable_nil d hc hk db name s, rfl,
      initialize_provisions_despite_listings d hc s⟩

/-- C2 fails on the code: on a driver whose listings succeed and on which creating table
`user` fails, the second of two runs on an empty server issues that create command
again. -/
theorem second_run_retries_failed_create :
    userCreateDownDriver.ListingsSucceed ∧
    creations (newCalls (initializeRethinkDB userCreateDownDriver emptyServer).2
      (initializeRethinkDB userCreateDownDriver
        (initializeRethinkDB userCreateDownDriver emptyServer).2).2) =
      [Term.tableCreate "lyceum" "user"] := by
  refine ⟨userCreateDownDriver_listingsSucceed, ?_⟩
  decide

theorem dbListDownDriver_createsSucceed : dbListDownDriver.CreatesSucceed :=
  ⟨fun _ _ => rfl, fun _ _ _ => rfl⟩

theorem dbListDownDriver_confirmationsSucceed : dbListDownDriver.ConfirmationsSucceed :=
  fun _ _ _ _ => rfl

/-- Instances of `provisioning_failure_handling`: a database listing that fails to execute,
a create-table command that fails to execute, an empty creation confirmation, and a full
run on a driver where only the database listing fails. -/
theorem provisioning_failure_handling_witness :
    (dbListDownDriver.fault Term.dbList emptyServer = some (Err.driver "timeout") ∧
      (newCalls emptyServer (initializeRethinkDB dbListDownDriver emptyServer).2).take 2 =
        [Call.run Term.dbList, Call.run (Term.dbCreate "lyceum")]) ∧
    createTable userCreateDownDriver "lyceum" "user" emptyServer =
      (some (Err.driver "permission denied"),
        { (tableExists userCreateDownDriver "lyceum" "user" emptyServer).2 with
          trace := (tableExists userCreateDownDriver "lyceum" "user" emptyServer).2.trace ++
            [Call.run (Term.tableCreate "lyceum" "user")] }) ∧
    (createDatabase noConfirmDriver "lyceum" emptyServer).1 = some Err.emptyResult ∧
    (dbListDownDriver.CreatesSucceed ∧ dbListDownDriver.ConfirmationsSucceed ∧
      (initializeRethinkDB dbListDownDriver emptyServer).1 = none ∧
      (initializeRethinkDB dbListDownDriver emptyServer).2.Provisioned) :=
  ⟨⟨by decide,
    ((provisioning_failure_handling dbListDownDriver "lyceum" "lyceum" emptyServer
      (Err.driver "timeout")).1 (by decide)).2.2⟩,
   (provisioning_failure_handling userCreateDownDriver "lyceum" "user" emptyServer
      (Err.driver "permission denied")).2.2.2.2.2.1 (by decide) (by decide),
   ((provisioning_failure_handling noConfirmDriver "lyceum" "lyceum" emptyServer
      Err.emptyResult).2.2.2.2.2.2.1 (by decide) (by decide)).2 (by decide),
   dbListDownDriver_createsSucceed, dbListDownDriver_confirmationsSucceed,
   ((provisioning_failure_handling dbListDownDriver "lyceum" "lyceum" emptyServer
      (Err.driver "timeout")).2.2.2.2.2.2.2.2 dbListDownDriver_createsSucceed
      dbListDownDriver_confirmationsSucceed).2.2⟩

/-- An instance of `initialize_idempotent`: the all-succeeding driver on an empty server. -/
theorem initialize_idempotent_witness :
    okDriver.ListingsSucceed ∧ okDriver.CreatesSucceed ∧
    creations (newCalls (initializeRethinkDB okDriver emptyServer).2
      (initializeRethinkDB okDriver (initializeRethinkDB okDriver emptyServer).2).2) = [] ∧
    (initializeRethinkDB okDriver (initializeRethinkDB okDriver emptyServer).2).2.tables =
      (initializeRethinkDB okDriver emptyServer).2.tables :=
  ⟨okDriver_listingsSucceed, okDriver_createsSucceed,
   (initialize_idempotent okDriver okDriver_listingsSucceed okDriver_createsSucceed
      emptyServer).2.1,
   (initialize_idempotent okDriver okDriver_listingsSucceed okDriver_createsSucceed
      emptyServer).2.2.2.1⟩

/-- Instances of `insert_roundtrip_and_count`: a response with one inserted row and key
`k1`, and a response with no inserted row. -/
theorem insert_roundtrip_and_count_witness :
    okDriver.fault (Term.insert userTable "doc") emptyServer = none ∧
    InsertRethinkDBDocument okDriver "doc" [] userTable emptyServer =
      Outcome.returned (GetRethinkDBDocument okDriver "k1" [] userTable
        { emptyServer with
          trace := emptyServer.trace ++ [Call.runWrite (Term.insert userTable "doc")] }) ∧
    InsertRethinkDBDocument zeroCountDriver "doc" [] userTable emptyServer =
      Outcome.returned (some (Err.insertedCount 0), [],
        { emptyServer with
          trace := emptyServer.trace ++ [Call.runWrite (Term.insert userTable "doc")] }) :=
  ⟨rfl,
   (insert_roundtrip_and_count okDriver "doc" [] userTable emptyServer rfl).1 "k1" []
      rfl rfl,
   (insert_roundtrip_and_count zeroCountDriver "doc" [] userTable emptyServer rfl).2
      (by decide)⟩

/-- Instances of `update_roundtrip_and_count`: a response with one replaced row, and a
response with no replaced row. -/
theorem update_roundtrip_and_count_witness :
    okDriver.fault (Term.update userTable "k1" "doc") emptyServer = none ∧
    UpdateRethinkDBDocument okDriver "k1" "doc" [] userTable emptyServer =
      GetRethinkDBDocument okDriver "k1" [] userTable
        { emptyServer with
          trace := emptyServer.trace ++ [Call.runWrite (Term.update userTable "k1" "doc")] } ∧
    UpdateRethinkDBDocument zeroCountDriver "k1" "doc" [] userTable emptyServer =
      (some (Err.replacedCount 0), [],
        { emptyServer with
          trace := emptyServer.trace ++ [Call.runWrite (Term.update userTable "k1" "doc")] }) :=
  ⟨rfl,
   (update_roundtrip_and_count okDriver "k1" "doc" [] userTable emptyServer rfl).1 rfl,
   (update_roundtrip_and_count zeroCountDriver "k1" "doc" [] userTable emptyServer rfl).2
      (by decide)⟩

/-- Instances of `crud_propagates_query_failure`: the five operations on a driver whose
every query fails. -/
theorem crud_propagates_query_failure_witness :
    InsertRethinkDBDocument downDriver "doc" [] userTable emptyServer =
      Outcome.returned (some (Err.driver "connection refused"), [],
        { emptyServer with
          trace := emptyServer.trace ++ [Call.runWrite (Term.insert userTable "doc")] }) ∧
    GetRethinkDBDocument downDriver "k1" [] userTable emptyServer =
      (some (Err.driver "connection refused"), [],
        { emptyServer with
          trace := emptyServer.trace ++ [Call.run (Term.get userTable "k1")] }) ∧
    GetRethinkDBAllDocuments downDriver [] userTable emptyServer =
      (some (Err.driver "connection refused"), [],
        { emptyServer with
          trace := emptyServer.trace ++ [Call.run (Term.scan userTable)] }) ∧
    UpdateRethinkDBDocument downDriver "k1" "doc" [] userTable emptyServer =
      (some (Err.driver "connection refused"), [],
        { emptyServer with
          trace := emptyServer.trace ++ [Call.runWrite (Term.update userTable "k1" "doc")] }) ∧
    DeleteRethinkDBDocument downDriver "k1" userTable emptyServer =
      (some (Err.driver "connection refused"),
        { emptyServer with
          trace := emptyServer.trace ++ [Call.run (Term.delete userTable "k1")] }) :=
  ⟨(crud_propagates_query_failure downDriver (Err.driver "connection refused") "k1" "doc" []
      userTable emptyServer).1 rfl,
   (crud_propagates_query_failure downDriver (Err.driver "connection refused") "k1" "doc" []
      userTable emptyServer).2.1 rfl,
   (crud_propagates_query_failure downDriver (Err.driver "connection refused") "k1" "doc" []
      userTable emptyServer).2.2.1 rfl,
   (crud_propagates_query_failure downDriver (Err.driver "connection refused") "k1" "doc" []
      userTable emptyServer).2.2.2.1 rfl,
   (crud_propagates_query_failure downDriver (Err.driver "connection refused") "k1" "doc" []
      userTable emptyServer).2.2.2.2 rfl⟩

/-- Instances of `get_returns_decode_outcome`: a lookup that yields no row, and one that
yields a row. -/
theorem get_returns_decode_outcome_witness :
    noRowDriver.fault (Term.get userTable "k1") emptyServer = none ∧
    ((GetRethinkDBDocument noRowDriver "k1" ["old"] userTable emptyServer).1 =
        some Err.emptyResult ∧
      (GetRethinkDBDocument noRowDriver "k1" ["old"] userTable emptyServer).2.1 = ["old"]) ∧
    ((GetRethinkDBDocument okDriver "k1" ["old"] userTable emptyServer).1,
      (GetRethinkDBDocument okDriver "k1" ["old"] userTable emptyServer).2.1) =
        okDriver.decodeOne "row" ["old"] :=
  ⟨rfl,
   (get_returns_decode_outcome noRowDriver "k1" ["old"] userTable emptyServer rfl).2.1 rfl,
   (get_returns_decode_outcome okDriver "k1" ["old"] userTable emptyServer rfl).2.2
      "row" [] rfl⟩

/-- An instance of `initialize_empty_server`: the all-succeeding driver on the empty
server. -/
theorem initialize_empty_server_witness :
    okDriver.ListingsSucceed ∧ okDriver.CreatesSucceed ∧
    emptyServer.dbs = [] ∧ emptyServer.tables = [] ∧
    creations (newCalls emptyServer (initializeRethinkDB okDriver emptyServer).2) =
      [Term.dbCreate "lyceum", Term.tableCreate "lyceum" "artifact",
       Term.tableCreate "lyceum" "item", Term.tableCreate "lyceum" "library",
       Term.tableCreate "lyceum" "organization", Term.tableCreate "lyceum" "role",
       Term.tableCreate "lyceum" "user"] :=
  ⟨okDriver_listingsSucceed, okDriver_createsSucceed, rfl, rfl,
   (initialize_empty_server okDriver okDriver_listingsSucceed okDriver_createsSucceed
      emptyServer rfl rfl).2.1⟩

end Lyceum
